import Mathlib

/-!
Verification development for the NEAR AI chat verification core
(`src/lib/verification.ts`, `src/lib/verification-service.ts` /
`src/types/verification.ts`, and the verification task in `src/server.ts`).

Machine integers do not occur in the core; hashes and addresses are strings.
Platform primitives (the Web Crypto SHA-256 digest behind `computeHash`,
`ethers.verifyMessage`, and the network behind `fetch`) are taken as
parameters: a digest function, a `recover` function (returning `none` when
the library throws), and per-attempt fetch oracles.  Everything else is a
direct translation of the TypeScript source.
-/

/-- Result embedded in provider responses (source: `NrasResult`). The
`details : Record<string, unknown>` field carries no typed content and is
modelled by its presence only. -/
structure NrasResult where
  success : Bool
  message : Option String := none
  details : Option Unit := none
deriving DecidableEq

/-- Parsed attestation JWT claims (source: `NrasJwtClaims`). -/
structure NrasJwtClaims where
  iss : String
  sub : String
  iat : Int
  exp : Int
  nbf : Option Int := none
  jti : Option String := none
  enclave_measurement : Option String := none
  tee : Option String := none
  hw_version : Option String := none
deriving DecidableEq

/-- Signature evidence returned by `GET /v1/signature/{chatId}` (source:
`SignatureResponse`). -/
structure SignatureResponse where
  chatId : Option String := none
  model : String
  signature : String
  signedHash : Option String := none
  text : Option String := none
  signerPublicKey : Option String := none
  signing_address : Option String := none
  algorithm : Option String := none
  signing_algo : Option String := none
  timestamp : Option String := none
  nrasResult : Option NrasResult := none
deriving DecidableEq

/-- Attestation evidence returned by `GET /v1/attestation/report` (source:
`AttestationResponse`). The `nvidia_payload` and `all_attestations` fields
of type `Record<string, unknown>` are modelled by presence only. -/
structure AttestationResponse where
  model : String
  attestationDocument : Option String := none
  jwt : Option String := none
  claims : Option NrasJwtClaims := none
  enclaveIdentity : Option String := none
  signing_address : Option String := none
  nvidia_payload : Option Unit := none
  intel_quote : Option String := none
  all_attestations : Option Unit := none
  nrasResult : Option NrasResult := none
deriving DecidableEq

/-- The verification verdict record (source: `VerificationData`). -/
structure VerificationData where
  chatId : String
  model : String
  requestHash : String
  responseHash : String
  signature : Option SignatureResponse := none
  attestation : Option AttestationResponse := none
  verified : Bool
  fetchedAt : Option String := none
  error : Option String := none
deriving DecidableEq

/-- Parameters of `VerificationService.verifyMessage`. `requestBodyJson` is
`JSON.stringify(requestBody)`, the serialization being done by the platform
before any hashing. -/
structure VerifyParams where
  chatId : String
  requestBodyJson : String
  responseText : String
  model : String
  apiKey : String
deriving DecidableEq

/-- JavaScript `x || y` on two optional strings: `x` when it is truthy (a
present, non-empty string), else `y`. -/
def jsOrOpt (x y : Option String) : Option String :=
  match x with
  | some s => if s = "" then y else some s
  | none => y

/-- JavaScript `x || y` where the right operand is a plain string. -/
def jsOrStr (x : Option String) (y : String) : String :=
  match x with
  | some s => if s = "" then y else s
  | none => y

/-- JavaScript truthiness of an optional string. -/
def jsTruthy : Option String → Bool
  | some s => !(s == "")
  | none => false

/-- String() rendering of a thrown `Error` object with the given message
(`Error.prototype.toString` prepends the name "Error: "). -/
def jsErrorString (msg : String) : String := "Error: " ++ msg

/-- JavaScript `toLowerCase()` as used on recovered addresses: per-character
ASCII lowering (addresses are hex strings, so the ASCII range suffices). -/
def strToLower (s : String) : String := String.mk (s.data.map Char.toLower)

/-- Character-level worker for JavaScript `t.split(":")`. -/
def splitColonList : List Char → List (List Char)
  | [] => [[]]
  | c :: cs =>
    let rest := splitColonList cs
    if c = ':' then [] :: rest
    else
      match rest with
      | r :: rs => (c :: r) :: rs
      | [] => [[c]]

/-- JavaScript `t.split(":")` (no limit argument): every occurrence of the
colon separates fields, and the empty string splits to `[""]`. -/
def jsSplitColon (t : String) : List String :=
  (splitColonList t.data).map (fun l => String.mk l)

/-- Hex rendering of one digest byte: `b.toString(16).padStart(2, "0")`
(source: the byte mapper inside `computeHash`). -/
def byteToHex (b : Nat) : String :=
  let s := String.mk (Nat.toDigits 16 (b % 256))
  if s.length < 2 then "0" ++ s else s

/-- `computeHash` from `src/lib/verification.ts`: UTF-8 encode the input,
apply the platform digest (`crypto.subtle.digest("SHA-256", …)`, passed here
as the parameter `digest` over byte lists), and hex-encode the result. -/
def computeHash (digest : List Nat → List Nat) (data : String) : String :=
  String.join ((digest (data.toUTF8.toList.map (fun b => b.toNat))).map byteToHex)

/-- Outcome of one fetch attempt against the remote verification authority:
`ok` is a parsed JSON response, `err` carries the `String()` rendering of
the exception the attempt threw (non-2xx status or network failure). -/
inductive FetchOutcome (α : Type) where
  | ok (value : α)
  | err (e : String)
deriving DecidableEq

/-- Events of a verification attempt, for reasoning about ordering and
waiting: `attempt tag i` is the i-th try of the fetch named `tag`;
`wait ms` is an awaited `setTimeout` of `ms` milliseconds. -/
inductive Ev where
  | attempt (tag : String) (i : Nat)
  | wait (ms : Nat)
deriving DecidableEq

/-- Retry attempt budget (source: `backoff.attempts`). -/
def backoffAttempts : Nat := 5

/-- Configured backoff delays in milliseconds (source: `backoff.delays`). -/
def backoffDelays : List Nat := [5000, 10000, 15000, 20000, 30000]

/-- The retry loop shared by `fetchSignature` and `fetchAttestation`
(source: the `for` loop over `backoff.attempts`): try the oracle at index
`i`; on success return the value; on failure record the error and, unless
this was the last attempt, await `backoff.delays[i]` and continue.  When
the loop exhausts its attempts it throws an error whose message is
`failMsg ++ String(lastError)`.  Returns the result together with the list
of events (attempts and waits) the run performed.  `fuel` is the number of
loop iterations left, `backoffAttempts - i` at every reachable call. -/
def fetchGo {α : Type} (tag : String) (oracle : Nat → FetchOutcome α)
    (failMsg : String) : Nat → Nat → String → Except String α × List Ev
  | 0, _, lastError => (Except.error (failMsg ++ lastError), [])
  | fuel + 1, i, _ =>
    match oracle i with
    | FetchOutcome.ok v => (Except.ok v, [Ev.attempt tag i])
    | FetchOutcome.err e =>
      if i < backoffAttempts - 1 then
        let r := fetchGo tag oracle failMsg fuel (i + 1) e
        (r.1, Ev.attempt tag i :: Ev.wait (backoffDelays.getD i 0) :: r.2)
      else
        let r := fetchGo tag oracle failMsg fuel (i + 1) e
        (r.1, Ev.attempt tag i :: r.2)

/-- `fetchSignature` from `src/lib/verification.ts`, with the network
abstracted to a per-attempt oracle.  `lastError` starts as the `String()`
rendering of `undefined`. -/
def fetchSignatureRun (oracle : Nat → FetchOutcome SignatureResponse) :
    Except String SignatureResponse × List Ev :=
  fetchGo "signature" oracle "Failed to fetch signature after retries: "
    backoffAttempts 0 "undefined"

/-- `fetchAttestation` from `src/lib/verification.ts`, with the network
abstracted to a per-attempt oracle. -/
def fetchAttestationRun (oracle : Nat → FetchOutcome AttestationResponse) :
    Except String AttestationResponse × List Ev :=
  fetchGo "attestation" oracle "Failed to fetch attestation after retries: "
    backoffAttempts 0 "undefined"

/-- `validateSignature` from `src/lib/verification-service.ts`.  `recover`
is `ethers.verifyMessage`, returning `none` when the library throws (the
`catch (_e)` path); the source then falls through to `return false`.
The signed payload is `sig.text || sig.signedHash || expectedHash` and the
expected identity `sig.signing_address || sig.signerPublicKey ||
sig.signerPublicKey`, both with JavaScript truthiness. -/
def validateSignature (recover : String → String → Option String)
    (sig : Option SignatureResponse) (expectedHash : String) : Bool :=
  match sig with
  | none => false
  | some s =>
    let signedPayload := jsOrStr (jsOrOpt s.text s.signedHash) expectedHash
    match recover signedPayload s.signature with
    | some recovered =>
      let expectedAddr :=
        jsOrOpt (jsOrOpt s.signing_address s.signerPublicKey) s.signerPublicKey
      match expectedAddr with
      | some a => if a = "" then false else (strToLower recovered == strToLower a)
      | none => false
    | none => false

/-- The hash reconciliation block of `verifyMessage` (source lines
"If the provider returned hashes, prefer matching combo; otherwise fall
back to ours"): given the four locally computed hash variants and the
optional signature record, select the canonical `(requestHash,
responseHash)` pair. -/
def reconcileHashes (requestHashWithNewlines responseHashWithNewlines
    requestHashNoNewlines responseHashNoNewlines : String)
    (signature : Option SignatureResponse) : String × String :=
  match signature with
  | some s =>
    match s.text with
    | some t =>
      if t = "" then (requestHashWithNewlines, responseHashWithNewlines)
      else
        let parts := jsSplitColon t
        if parts.length = 2 then
          let sigReq := parts.getD 0 ""
          let sigRes := parts.getD 1 ""
          if sigReq = requestHashWithNewlines ∧ sigRes = responseHashWithNewlines then
            (requestHashWithNewlines, responseHashWithNewlines)
          else if sigReq = requestHashNoNewlines ∧ sigRes = responseHashNoNewlines then
            (requestHashNoNewlines, responseHashNoNewlines)
          else
            (sigReq, sigRes)
        else (requestHashWithNewlines, responseHashWithNewlines)
    | none => (requestHashWithNewlines, responseHashWithNewlines)
  | none => (requestHashWithNewlines, responseHashWithNewlines)

/-- The body of `VerificationService.verifyMessage` after the two evidence
fetches have settled: compute the four hash variants, convert each fetch
result into an optional record plus the accumulated error string, reconcile
the canonical hashes, validate the signature over
`"{requestHash}:{responseHash}"`, and assemble the record with
`verified = validateSignature(signature, concatenated) && !!attestation`. -/
def verifyCore (hashFn : String → String)
    (recover : String → String → Option String)
    (p : VerifyParams) (fetchedAt : String)
    (sigResult : Except String SignatureResponse)
    (attResult : Except String AttestationResponse) : VerificationData :=
  let requestHashWithNewlines := hashFn (p.requestBodyJson ++ "\n\n")
  let requestHashNoNewlines := hashFn p.requestBodyJson
  let responseHashWithNewlines := hashFn (p.responseText ++ "\n\n")
  let responseHashNoNewlines := hashFn p.responseText
  let signature : Option SignatureResponse :=
    match sigResult with
    | Except.ok s => some s
    | Except.error _ => none
  let error1 : Option String :=
    match sigResult with
    | Except.ok _ => none
    | Except.error e => some ("signature-fetch-failed: " ++ jsErrorString e)
  let attestation : Option AttestationResponse :=
    match attResult with
    | Except.ok a => some a
    | Except.error _ => none
  let error : Option String :=
    match attResult with
    | Except.ok _ => error1
    | Except.error e =>
      match error1 with
      | some err => some (err ++ "; attestation-fetch-failed: " ++ jsErrorString e)
      | none => some ("attestation-fetch-failed: " ++ jsErrorString e)
  let rh := reconcileHashes requestHashWithNewlines responseHashWithNewlines
    requestHashNoNewlines responseHashNoNewlines signature
  let concatenated := rh.1 ++ ":" ++ rh.2
  let verified := validateSignature recover signature concatenated && attestation.isSome
  { chatId := p.chatId
    model := p.model
    requestHash := rh.1
    responseHash := rh.2
    signature := signature
    attestation := attestation
    verified := verified
    fetchedAt := some fetchedAt
    error := error }

/-- `VerificationService.verifyMessage`: the signature fetch is awaited
first, then the attestation fetch (the source `await`s them one after the
other, each in its own `try`/`catch`); the record is then assembled by
`verifyCore`.  The second component is the event timeline of the attempt:
the signature run's events followed by the attestation run's events. -/
def verifyMessage (hashFn : String → String)
    (recover : String → String → Option String)
    (sigOracle : Nat → FetchOutcome SignatureResponse)
    (attOracle : Nat → FetchOutcome AttestationResponse)
    (fetchedAt : String) (p : VerifyParams) : VerificationData × List Ev :=
  let sigRun := fetchSignatureRun sigOracle
  let attRun := fetchAttestationRun attOracle
  (verifyCore hashFn recover p fetchedAt sigRun.1 attRun.1,
   sigRun.2 ++ attRun.2)

/-- Model identifier used by the server (source: `NEAR_MODEL`). -/
def NEAR_MODEL : String := "openai/gpt-oss-120b"

/-- The verification task's timeout ceiling in milliseconds (source:
`verificationTimeoutMs` in `onChatMessage`). -/
def verificationTimeoutMs : Nat := 30000

/-- Message metadata written by the server's verification task: the stored
verification record and the tri-state status string. -/
structure VerifyTaskResult where
  verification : VerificationData
  verificationStatus : String
deriving DecidableEq

/-- The `catch` block of the server's verification task (source:
`onChatMessage`): recompute best-effort hashes with the trailing-newline
convention and store a failed record whose `error` is `String(e)` for the
caught exception. -/
def timeoutCatchHandler (hashFn : String → String) (errString : String)
    (chatId : Option String) (requestBodyJson streamedText fetchedAt : String) :
    VerifyTaskResult :=
  let requestHash := hashFn (requestBodyJson ++ "\n\n")
  let responseHash := hashFn (streamedText ++ "\n\n")
  { verification :=
      { chatId := jsOrStr chatId ""
        model := NEAR_MODEL
        requestHash := requestHash
        responseHash := responseHash
        signature := none
        attestation := none
        verified := false
        fetchedAt := some fetchedAt
        error := some errString }
    verificationStatus := "failed" }

/-- The server's verification task (source: `onChatMessage`, the
`Promise.race` of `verifyMessage` against a 30-second
`setTimeout(reject(new Error("verification-timeout")))`).  `orchestration`
is the resolution of the `verifyMessage` promise: `some (data, t)` means it
resolves with `data` at virtual time `t` milliseconds, `none` means it
never resolves.  A resolution strictly before the deadline wins the race
and the metadata records `data` with status `verified`/`failed`; otherwise
the timer's rejection wins and the `catch` block runs. -/
def runVerificationTask (hashFn : String → String)
    (orchestration : Option (VerificationData × Nat))
    (chatId : Option String) (requestBodyJson streamedText fetchedAt : String) :
    VerifyTaskResult :=
  match orchestration with
  | some (data, t) =>
    if t < verificationTimeoutMs then
      { verification := data
        verificationStatus := if data.verified then "verified" else "failed" }
    else
      timeoutCatchHandler hashFn (jsErrorString "verification-timeout")
        chatId requestBodyJson streamedText fetchedAt
  | none =>
    timeoutCatchHandler hashFn (jsErrorString "verification-timeout")
      chatId requestBodyJson streamedText fetchedAt

/-- Milliseconds of awaited `setTimeout` calls in an event list. -/
def waitsOf : List Ev → List Nat
  | [] => []
  | Ev.wait ms :: rest => ms :: waitsOf rest
  | Ev.attempt _ _ :: rest => waitsOf rest

/-- Number of fetch attempts in an event list. -/
def attemptCount : List Ev → Nat
  | [] => 0
  | Ev.attempt _ _ :: rest => attemptCount rest + 1
  | Ev.wait _ :: rest => attemptCount rest

/-- Virtual time (total awaited milliseconds) elapsed before the first
attempt of the fetch named `tag`, or `none` when that fetch is never
attempted. -/
def timeToFirstAttempt (tag : String) : List Ev → Option Nat
  | [] => none
  | Ev.attempt t _ :: rest =>
    if t = tag then some 0 else timeToFirstAttempt tag rest
  | Ev.wait ms :: rest =>
    (timeToFirstAttempt tag rest).map (fun x => ms + x)

/-- Reconciler as worded by the spec's §4.3 algorithm, for comparison with
`reconcileHashes`: default to the newline variant when there is no record
or its payload is absent or does not split into exactly two colon-delimited
fields; else prefer an exact newline-variant match, then an exact
plain-variant match, else take the reported pair verbatim. -/
def specReconcileClaim (reqNl resNl reqPlain resPlain : String)
    (signature : Option SignatureResponse) : String × String :=
  match signature with
  | none => (reqNl, resNl)
  | some s =>
    match s.text with
    | none => (reqNl, resNl)
    | some t =>
      let parts := jsSplitColon t
      if parts.length = 2 then
        let sigReq := parts.getD 0 ""
        let sigRes := parts.getD 1 ""
        if sigReq = reqNl ∧ sigRes = resNl then (reqNl, resNl)
        else if sigReq = reqPlain ∧ sigRes = resPlain then (reqPlain, resPlain)
        else (sigReq, sigRes)
      else (reqNl, resNl)

/-- Validator as worded by the claim for C3: the signed text is used
whenever the field is present (also when it is the empty string), the
legacy signed hash whenever the text field is absent, and presence alone
selects the declared signing address over the public key field. -/
def specValidateClaim (recover : String → String → Option String)
    (sig : Option SignatureResponse) (canonicalPayload : String) : Bool :=
  match sig with
  | none => false
  | some s =>
    let payload :=
      match s.text with
      | some t => t
      | none =>
        match s.signedHash with
        | some h => h
        | none => canonicalPayload
    match recover payload s.signature with
    | none => false
    | some recovered =>
      match s.signing_address with
      | some a => strToLower recovered == strToLower a
      | none =>
        match s.signerPublicKey with
        | some k => strToLower recovered == strToLower k
        | none => false

/-- Validator as worded by the amended claim for C3: the signed text is
used when present and non-empty, else the legacy signed hash when present
and non-empty, else the canonical payload; the recovered identity is
compared case-insensitively against the declared signing address when it is
present and non-empty, else against the declared public key field when it
is present and non-empty, and the validator returns false otherwise or when
recovery throws. -/
def specValidateTruthy (recover : String → String → Option String)
    (sig : Option SignatureResponse) (canonicalPayload : String) : Bool :=
  match sig with
  | none => false
  | some s =>
    let payload :=
      if jsTruthy s.text then s.text.getD ""
      else if jsTruthy s.signedHash then s.signedHash.getD ""
      else canonicalPayload
    match recover payload s.signature with
    | none => false
    | some recovered =>
      if jsTruthy s.signing_address then
        strToLower recovered == strToLower (s.signing_address.getD "")
      else if jsTruthy s.signerPublicKey then
        strToLower recovered == strToLower (s.signerPublicKey.getD "")
      else false

/-- Dummy hash function for concrete runs: prefixes the payload, so the
four variants of distinct payloads stay distinct. -/
def hashPre (s : String) : String := "H" ++ s

/-- Recovery oracle that always recovers the fixed address 0xAddr. -/
def recoverConst (payload sig : String) : Option String :=
  let _ := payload
  let _ := sig
  some "0xAddr"

/-- Recovery oracle that recovers the signed payload itself, used to make
the payload-selection divergence of C3 observable end to end. -/
def recoverEcho (payload sig : String) : Option String :=
  let _ := sig
  some payload

/-- Sample verification parameters for concrete runs. -/
def sampleParams : VerifyParams :=
  { chatId := "chat-1"
    requestBodyJson := "rq"
    responseText := "rs"
    model := "m"
    apiKey := "k" }

/-- Signature record whose reported text matches the newline-variant hashes
of `sampleParams` under `hashPre` and whose declared address is the one
`recoverConst` recovers. -/
def okSigRecord : SignatureResponse :=
  { model := "m"
    signature := "0xsig"
    text := some "Hrq\n\n:Hrs\n\n"
    signing_address := some "0xADDR" }

/-- Sample attestation record. -/
def okAttRecord : AttestationResponse :=
  { model := "m" }

/-- Oracle whose first attempt succeeds with `okSigRecord`. -/
def okSigOracle : Nat → FetchOutcome SignatureResponse :=
  fun _ => FetchOutcome.ok okSigRecord

/-- Oracle whose first attempt succeeds with `okAttRecord`. -/
def okAttOracle : Nat → FetchOutcome AttestationResponse :=
  fun _ => FetchOutcome.ok okAttRecord

/-- Signature oracle every attempt of which fails. -/
def failSigOracle : Nat → FetchOutcome SignatureResponse :=
  fun _ => FetchOutcome.err "boom"

/-- Attestation oracle every attempt of which fails. -/
def failAttOracle : Nat → FetchOutcome AttestationResponse :=
  fun _ => FetchOutcome.err "boom"

/-- Signature record with an empty reported text and an empty declared
signing address: JavaScript truthiness skips both fields, while the
claim's by-presence selection would use them. -/
def emptyTextSigRecord : SignatureResponse :=
  { model := "m"
    signature := "0xsig"
    signedHash := some "legacyhash"
    text := some ""
    signerPublicKey := some "PK"
    signing_address := some "" }

/-- Signature record declaring neither a signing address nor a public
key. -/
def noAddrSigRecord : SignatureResponse :=
  { model := "m"
    signature := "0xsig"
    text := some "t" }

/-- Sample verdict used to exercise the success branch of the server's
race. -/
def sampleVerdict : VerificationData :=
  { chatId := "chat-1"
    model := NEAR_MODEL
    requestHash := "r1"
    responseHash := "r2"
    verified := true }

/-- The record component of `verifyMessage` is `verifyCore` applied to the
two fetch results. -/
theorem verifyMessage_fst (hashFn : String → String)
    (recover : String → String → Option String)
    (sigOracle : Nat → FetchOutcome SignatureResponse)
    (attOracle : Nat → FetchOutcome AttestationResponse)
    (fetchedAt : String) (p : VerifyParams) :
    (verifyMessage hashFn recover sigOracle attOracle fetchedAt p).1 =
      verifyCore hashFn recover p fetchedAt
        (fetchSignatureRun sigOracle).1 (fetchAttestationRun attOracle).1 := rfl

/-- The timeline of `verifyMessage` is the signature run's events followed
by the attestation run's events. -/
theorem verifyMessage_snd (hashFn : String → String)
    (recover : String → String → Option String)
    (sigOracle : Nat → FetchOutcome SignatureResponse)
    (attOracle : Nat → FetchOutcome AttestationResponse)
    (fetchedAt : String) (p : VerifyParams) :
    (verifyMessage hashFn recover sigOracle attOracle fetchedAt p).2 =
      (fetchSignatureRun sigOracle).2 ++ (fetchAttestationRun attOracle).2 := rfl

/-- The stored `verified` flag is the conjunction of signature validation
over the canonical payload with attestation presence. -/
theorem verifyCore_verified_eq (hashFn : String → String)
    (recover : String → String → Option String)
    (p : VerifyParams) (fetchedAt : String)
    (sigResult : Except String SignatureResponse)
    (attResult : Except String AttestationResponse) :
    (verifyCore hashFn recover p fetchedAt sigResult attResult).verified =
      (validateSignature recover
          (verifyCore hashFn recover p fetchedAt sigResult attResult).signature
          ((verifyCore hashFn recover p fetchedAt sigResult attResult).requestHash
            ++ ":" ++
            (verifyCore hashFn recover p fetchedAt sigResult attResult).responseHash)
        && (verifyCore hashFn recover p fetchedAt sigResult attResult).attestation.isSome) := rfl

/-- The stored signature is the successful fetch result, or absent. -/
theorem verifyCore_signature_eq (hashFn : String → String)
    (recover : String → String → Option String)
    (p : VerifyParams) (fetchedAt : String)
    (sigResult : Except String SignatureResponse)
    (attResult : Except String AttestationResponse) :
    (verifyCore hashFn recover p fetchedAt sigResult attResult).signature =
      (match sigResult with
        | Except.ok s => some s
        | Except.error _ => none) := rfl

/-- The stored attestation is the successful fetch result, or absent. -/
theorem verifyCore_attestation_eq (hashFn : String → String)
    (recover : String → String → Option String)
    (p : VerifyParams) (fetchedAt : String)
    (sigResult : Except String SignatureResponse)
    (attResult : Except String AttestationResponse) :
    (verifyCore hashFn recover p fetchedAt sigResult attResult).attestation =
      (match attResult with
        | Except.ok a => some a
        | Except.error _ => none) := rfl

/-- The stored error accumulates the labelled failure of each fetch. -/
theorem verifyCore_error_eq (hashFn : String → String)
    (recover : String → String → Option String)
    (p : VerifyParams) (fetchedAt : String)
    (sigResult : Except String SignatureResponse)
    (attResult : Except String AttestationResponse) :
    (verifyCore hashFn recover p fetchedAt sigResult attResult).error =
      (match attResult with
        | Except.ok _ =>
          match sigResult with
          | Except.ok _ => none
          | Except.error e => some ("signature-fetch-failed: " ++ jsErrorString e)
        | Except.error e =>
          match sigResult with
          | Except.ok _ => some ("attestation-fetch-failed: " ++ jsErrorString e)
          | Except.error es =>
            some ("signature-fetch-failed: " ++ jsErrorString es
              ++ "; attestation-fetch-failed: " ++ jsErrorString e)) := by
  cases sigResult <;> cases attResult <;> rfl

/-- C2: for every four locally computed hash variants and every optional
signature record, `reconcileHashes` (the reconciliation block of
`verifyMessage`) selects the canonical pair by exactly the spec's
precedence: default to the newline variant when there is no record or its
reported payload is absent or not exactly two colon-delimited fields, else
newline-variant match, else plain-variant match, else the reported pair
verbatim. -/
theorem claim_c2_reconciler_precedence (reqNl resNl reqPlain resPlain : String)
    (signature : Option SignatureResponse) :
    reconcileHashes reqNl resNl reqPlain resPlain signature =
      specReconcileClaim reqNl resNl reqPlain resPlain signature := by
  cases signature with
  | none => rfl
  | some s =>
    cases ht : s.text with
    | none => simp [reconcileHashes, specReconcileClaim, ht]
    | some t =>
      by_cases h0 : t = ""
      · subst h0
        simp [reconcileHashes, specReconcileClaim, ht, jsSplitColon, splitColonList]
      · simp [reconcileHashes, specReconcileClaim, ht, h0]

/-- Composition of the two JavaScript fallbacks in the signed-payload
selection collapses to a three-way truthiness choice. -/
theorem jsOrStr_jsOrOpt (x y : Option String) (z : String) :
    jsOrStr (jsOrOpt x y) z =
      (if jsTruthy x then x.getD "" else if jsTruthy y then y.getD "" else z) := by
  cases x with
  | none =>
    cases y with
    | none => simp [jsOrStr, jsOrOpt, jsTruthy]
    | some sy => by_cases hy : sy = "" <;> simp [jsOrStr, jsOrOpt, jsTruthy, hy]
  | some sx =>
    by_cases hx : sx = ""
    · cases y with
      | none => simp [jsOrStr, jsOrOpt, jsTruthy, hx]
      | some sy => by_cases hy : sy = "" <;> simp [jsOrStr, jsOrOpt, jsTruthy, hx, hy]
    · simp [jsOrStr, jsOrOpt, jsTruthy, hx]

/-- C3 (amended): `validateSignature` selects the signed text by JavaScript
truthiness (present and non-empty) rather than bare presence, likewise for
the declared identity, and returns true only on a successful recovery whose
result matches the selected identity case-insensitively; recovery
exceptions yield false. -/
theorem claim_c3_amended_validator (recover : String → String → Option String)
    (sig : Option SignatureResponse) (canonicalPayload : String) :
    validateSignature recover sig canonicalPayload =
      specValidateTruthy recover sig canonicalPayload := by
  cases sig with
  | none => rfl
  | some s =>
    simp only [validateSignature, specValidateTruthy]
    rw [jsOrStr_jsOrOpt]
    cases hrec : recover
        (if jsTruthy s.text then s.text.getD ""
          else if jsTruthy s.signedHash then s.signedHash.getD ""
          else canonicalPayload) s.signature with
    | none => rfl
    | some recovered =>
      cases ha : s.signing_address with
      | none =>
        cases hp : s.signerPublicKey with
        | none => simp [jsOrOpt, jsTruthy]
        | some k => by_cases hk : k = "" <;> simp [jsOrOpt, jsTruthy, hk]
      | some a =>
        by_cases haa : a = ""
        · cases hp : s.signerPublicKey with
          | none => simp [jsOrOpt, jsTruthy, haa]
          | some k => by_cases hk : k = "" <;> simp [jsOrOpt, jsTruthy, haa, hk]
        · simp [jsOrOpt, jsTruthy, haa]

/-- C3 (counterexample): on a record whose reported signed text and signing
address are present but empty, the code skips both fields (JavaScript
truthiness) while the claim's by-presence selection uses them, and the two
verdicts differ. -/
theorem claim_c3_counterexample :
    validateSignature recoverEcho (some emptyTextSigRecord) "req:res" = false ∧
    specValidateClaim recoverEcho (some emptyTextSigRecord) "req:res" = true := by
  constructor <;> decide

/-- C10: `validateSignature` is false on an absent record, and false on any
record declaring neither a signing address nor a signer public key, for
every recovery oracle (in particular when recovery succeeds). -/
theorem claim_c10_no_identity (recover : String → String → Option String)
    (expectedHash : String) :
    validateSignature recover none expectedHash = false ∧
    (∀ s : SignatureResponse, s.signing_address = none → s.signerPublicKey = none →
      validateSignature recover (some s) expectedHash = false) := by
  refine ⟨rfl, ?_⟩
  intro s ha hp
  simp only [validateSignature, ha, hp, jsOrOpt]
  split <;> rfl

/-- C10 (witness): a concrete record with no declared identity is rejected
even though `recoverConst` recovers an address successfully. -/
theorem claim_c10_witness :
    noAddrSigRecord.signing_address = none ∧
    recoverConst "t" "0xsig" = some "0xAddr" ∧
    validateSignature recoverConst (some noAddrSigRecord) "h" = false :=
  ⟨rfl, rfl, (claim_c10_no_identity recoverConst "h").2 noAddrSigRecord rfl rfl⟩

/-- C1: `verified` can be true only when signature validation over the
canonical payload succeeded and an attestation record (of any content) was
obtained; in particular a failed attestation fetch forces `verified =
false` whatever the signature fetch and validation did. -/
theorem claim_c1_verified_needs_both (hashFn : String → String)
    (recover : String → String → Option String)
    (sigOracle : Nat → FetchOutcome SignatureResponse)
    (attOracle : Nat → FetchOutcome AttestationResponse)
    (fetchedAt : String) (p : VerifyParams) :
    ((verifyMessage hashFn recover sigOracle attOracle fetchedAt p).1.verified = true →
      validateSignature recover
          (verifyMessage hashFn recover sigOracle attOracle fetchedAt p).1.signature
          ((verifyMessage hashFn recover sigOracle attOracle fetchedAt p).1.requestHash
            ++ ":" ++
            (verifyMessage hashFn recover sigOracle attOracle fetchedAt p).1.responseHash) = true ∧
      (verifyMessage hashFn recover sigOracle attOracle fetchedAt p).1.attestation.isSome = true) ∧
    (∀ e, (fetchAttestationRun attOracle).1 = Except.error e →
      (verifyMessage hashFn recover sigOracle attOracle fetchedAt p).1.verified = false) := by
  constructor
  · intro hv
    simp only [verifyMessage_fst] at hv ⊢
    rw [verifyCore_verified_eq, Bool.and_eq_true] at hv
    exact hv
  · intro e he
    simp only [verifyMessage_fst]
    rw [verifyCore_verified_eq, verifyCore_attestation_eq, he]
    simp

/-- C1 (witness): a concrete fully successful run is verified, so the
implication's premise holds and its conclusion evaluates; a concrete run
whose attestation fetch exhausts its retries is not verified. -/
theorem claim_c1_witness :
    (validateSignature recoverConst
        (verifyMessage hashPre recoverConst okSigOracle okAttOracle "t0" sampleParams).1.signature
        ((verifyMessage hashPre recoverConst okSigOracle okAttOracle "t0" sampleParams).1.requestHash
          ++ ":" ++
          (verifyMessage hashPre recoverConst okSigOracle okAttOracle "t0" sampleParams).1.responseHash) = true ∧
      (verifyMessage hashPre recoverConst okSigOracle okAttOracle "t0" sampleParams).1.attestation.isSome = true) ∧
    (verifyMessage hashPre recoverConst okSigOracle failAttOracle "t0" sampleParams).1.verified = false :=
  ⟨(claim_c1_verified_needs_both hashPre recoverConst okSigOracle okAttOracle "t0" sampleParams).1
      (by decide),
   (claim_c1_verified_needs_both hashPre recoverConst okSigOracle failAttOracle "t0" sampleParams).2
      "Failed to fetch attestation after retries: boom" (by rfl)⟩

/-- C9: whenever the returned record carries an error string (some evidence
fetch exhausted its retries), `verified` is false. -/
theorem claim_c9_error_implies_unverified (hashFn : String → String)
    (recover : String → String → Option String)
    (sigOracle : Nat → FetchOutcome SignatureResponse)
    (attOracle : Nat → FetchOutcome AttestationResponse)
    (fetchedAt : String) (p : VerifyParams) :
    (verifyMessage hashFn recover sigOracle attOracle fetchedAt p).1.error.isSome = true →
    (verifyMessage hashFn recover sigOracle attOracle fetchedAt p).1.verified = false := by
  intro he
  simp only [verifyMessage_fst] at he ⊢
  rw [verifyCore_error_eq] at he
  rw [verifyCore_verified_eq]
  cases hs : (fetchSignatureRun sigOracle).1 with
  | error es =>
    rw [verifyCore_signature_eq]
    simp [validateSignature]
  | ok s =>
    cases ha : (fetchAttestationRun attOracle).1 with
    | error ea =>
      rw [verifyCore_attestation_eq]
      simp
    | ok a =>
      rw [hs, ha] at he
      simp at he

/-- C9 (witness): a concrete run whose signature fetch fails has an error
string and is reported unverified. -/
theorem claim_c9_witness :
    (verifyMessage hashPre recoverConst failSigOracle okAttOracle "t0" sampleParams).1.verified = false :=
  claim_c9_error_implies_unverified hashPre recoverConst failSigOracle okAttOracle
    "t0" sampleParams (by decide)

/-- Every run of the attestation fetch loop begins by issuing attempt 0. -/
theorem fetchGo_head {α : Type} (tag : String) (oracle : Nat → FetchOutcome α)
    (failMsg : String) (fuel i : Nat) (lastError : String) :
    ∃ tr, (fetchGo tag oracle failMsg (fuel + 1) i lastError).2 = Ev.attempt tag i :: tr := by
  cases h : oracle i with
  | ok v => exact ⟨[], by simp [fetchGo, h]⟩
  | err e =>
    by_cases hi : i < backoffAttempts - 1
    · exact ⟨Ev.wait (backoffDelays.getD i 0) :: (fetchGo tag oracle failMsg fuel (i + 1) e).2,
        by simp [fetchGo, h, hi]⟩
    · exact ⟨(fetchGo tag oracle failMsg fuel (i + 1) e).2, by simp [fetchGo, h, hi]⟩

/-- The attestation fetch issues its first attempt whatever its oracle. -/
theorem fetchAttestationRun_head (oracle : Nat → FetchOutcome AttestationResponse) :
    ∃ tr, (fetchAttestationRun oracle).2 = Ev.attempt "attestation" 0 :: tr := by
  have h := fetchGo_head "attestation" oracle
    "Failed to fetch attestation after retries: " 4 0 "undefined"
  norm_num at h
  simpa [fetchAttestationRun, backoffAttempts] using h

/-- C6: when both evidence fetches exhaust their retries, the stored error
contains both labelled failures joined by "; ", the attestation fetch was
still issued after the signature failure (the sibling is not aborted), the
attempt still terminates in a record, and the missing evidence flows into
`verified` as false. -/
theorem claim_c6_both_failures_accumulate (hashFn : String → String)
    (recover : String → String → Option String)
    (sigOracle : Nat → FetchOutcome SignatureResponse)
    (attOracle : Nat → FetchOutcome AttestationResponse)
    (fetchedAt : String) (p : VerifyParams) :
    ∀ es ea, (fetchSignatureRun sigOracle).1 = Except.error es →
      (fetchAttestationRun attOracle).1 = Except.error ea →
      (verifyMessage hashFn recover sigOracle attOracle fetchedAt p).1.error =
        some ("signature-fetch-failed: " ++ jsErrorString es
          ++ "; attestation-fetch-failed: " ++ jsErrorString ea) ∧
      (∃ tr, (verifyMessage hashFn recover sigOracle attOracle fetchedAt p).2 =
        (fetchSignatureRun sigOracle).2 ++ Ev.attempt "attestation" 0 :: tr) ∧
      (verifyMessage hashFn recover sigOracle attOracle fetchedAt p).1.verified = false := by
  intro es ea hs ha
  refine ⟨?_, ?_, ?_⟩
  · simp only [verifyMessage_fst]
    rw [verifyCore_error_eq, hs, ha]
  · rw [verifyMessage_snd]
    obtain ⟨tr, htr⟩ := fetchAttestationRun_head attOracle
    exact ⟨tr, by rw [htr]⟩
  · simp only [verifyMessage_fst]
    rw [verifyCore_verified_eq, verifyCore_signature_eq, hs]
    simp [validateSignature]

/-- C6 (witness): with both oracles failing every attempt, the error string
carries both labels joined by "; " and the run is unverified. -/
theorem claim_c6_witness :
    (verifyMessage hashPre recoverConst failSigOracle failAttOracle "t0" sampleParams).1.error =
      some ("signature-fetch-failed: "
        ++ jsErrorString "Failed to fetch signature after retries: boom"
        ++ "; attestation-fetch-failed: "
        ++ jsErrorString "Failed to fetch attestation after retries: boom") ∧
    (∃ tr, (verifyMessage hashPre recoverConst failSigOracle failAttOracle "t0" sampleParams).2 =
      (fetchSignatureRun failSigOracle).2 ++ Ev.attempt "attestation" 0 :: tr) ∧
    (verifyMessage hashPre recoverConst failSigOracle failAttOracle "t0" sampleParams).1.verified = false :=
  claim_c6_both_failures_accumulate hashPre recoverConst failSigOracle failAttOracle
    "t0" sampleParams
    "Failed to fetch signature after retries: boom"
    "Failed to fetch attestation after retries: boom" (by rfl) (by rfl)

/-- Unfolding of one failing, non-final retry iteration. -/
theorem fetchGo_step {α : Type} (tag : String) (oracle : Nat → FetchOutcome α)
    (failMsg : String) (fuel i : Nat) (lastError e : String)
    (h : oracle i = FetchOutcome.err e) (hi : i < backoffAttempts - 1) :
    fetchGo tag oracle failMsg (fuel + 1) i lastError =
      ((fetchGo tag oracle failMsg fuel (i + 1) e).1,
        Ev.attempt tag i :: Ev.wait (backoffDelays.getD i 0) ::
          (fetchGo tag oracle failMsg fuel (i + 1) e).2) := by
  simp [fetchGo, h, hi]

/-- Unfolding of the failing final retry iteration: no wait is awaited. -/
theorem fetchGo_final (tag : String) {α : Type} (oracle : Nat → FetchOutcome α)
    (failMsg : String) (fuel i : Nat) (lastError e : String)
    (h : oracle i = FetchOutcome.err e) (hi : ¬ i < backoffAttempts - 1) :
    fetchGo tag oracle failMsg (fuel + 1) i lastError =
      ((fetchGo tag oracle failMsg fuel (i + 1) e).1,
        Ev.attempt tag i :: (fetchGo tag oracle failMsg fuel (i + 1) e).2) := by
  simp [fetchGo, h, hi]

/-- The retry loop makes at most `fuel` attempts. -/
theorem fetchGo_attemptCount {α : Type} (tag : String) (oracle : Nat → FetchOutcome α)
    (failMsg : String) :
    ∀ fuel i lastError,
      attemptCount (fetchGo tag oracle failMsg fuel i lastError).2 ≤ fuel := by
  intro fuel
  induction fuel with
  | zero => intro i last; simp [fetchGo, attemptCount]
  | succ n ih =>
    intro i last
    cases h : oracle i with
    | ok v => simp [fetchGo, h, attemptCount]
    | err e =>
      have hr := ih (i + 1) e
      by_cases hi : i < backoffAttempts - 1 <;>
        simp [fetchGo, h, hi, attemptCount] <;> omega

/-- A retry-loop run whose five attempts all fail performs exactly the
attempts 0–4 interleaved with waits of 5, 10, 15 and 20 seconds, and throws
an error carrying the last attempt's cause. -/
theorem fetchGo_allFail {α : Type} (tag : String) (oracle : Nat → FetchOutcome α)
    (failMsg : String) (f : Nat → String)
    (h : ∀ i, i < backoffAttempts → oracle i = FetchOutcome.err (f i)) :
    fetchGo tag oracle failMsg backoffAttempts 0 "undefined" =
      (Except.error (failMsg ++ f 4),
        [Ev.attempt tag 0, Ev.wait 5000, Ev.attempt tag 1,
          Ev.wait 10000, Ev.attempt tag 2, Ev.wait 15000,
          Ev.attempt tag 3, Ev.wait 20000, Ev.attempt tag 4]) := by
  have h0 := h 0 (by norm_num [backoffAttempts])
  have h1 := h 1 (by norm_num [backoffAttempts])
  have h2 := h 2 (by norm_num [backoffAttempts])
  have h3 := h 3 (by norm_num [backoffAttempts])
  have h4 := h 4 (by norm_num [backoffAttempts])
  have e0 := fetchGo_step tag oracle failMsg
    4 0 "undefined" (f 0) h0 (by norm_num [backoffAttempts])
  have e1 := fetchGo_step tag oracle failMsg
    3 1 (f 0) (f 1) h1 (by norm_num [backoffAttempts])
  have e2 := fetchGo_step tag oracle failMsg
    2 2 (f 1) (f 2) h2 (by norm_num [backoffAttempts])
  have e3 := fetchGo_step tag oracle failMsg
    1 3 (f 2) (f 3) h3 (by norm_num [backoffAttempts])
  have e4 := fetchGo_final tag oracle failMsg
    0 4 (f 3) (f 4) h4 (by norm_num [backoffAttempts])
  norm_num at e0 e1 e2 e3 e4
  show fetchGo tag oracle failMsg 5 0 "undefined" = _
  rw [e0, e1, e2, e3, e4]
  simp [fetchGo, backoffDelays]

/-- The all-fail schedule of the signature fetch. -/
theorem fetchSignatureRun_allFail (oracle : Nat → FetchOutcome SignatureResponse)
    (f : Nat → String)
    (h : ∀ i, i < backoffAttempts → oracle i = FetchOutcome.err (f i)) :
    fetchSignatureRun oracle =
      (Except.error ("Failed to fetch signature after retries: " ++ f 4),
        [Ev.attempt "signature" 0, Ev.wait 5000, Ev.attempt "signature" 1,
          Ev.wait 10000, Ev.attempt "signature" 2, Ev.wait 15000,
          Ev.attempt "signature" 3, Ev.wait 20000, Ev.attempt "signature" 4]) :=
  fetchGo_allFail "signature" oracle "Failed to fetch signature after retries: " f h

/-- The all-fail schedule of the attestation fetch. -/
theorem fetchAttestationRun_allFail (oracle : Nat → FetchOutcome AttestationResponse)
    (f : Nat → String)
    (h : ∀ i, i < backoffAttempts → oracle i = FetchOutcome.err (f i)) :
    fetchAttestationRun oracle =
      (Except.error ("Failed to fetch attestation after retries: " ++ f 4),
        [Ev.attempt "attestation" 0, Ev.wait 5000, Ev.attempt "attestation" 1,
          Ev.wait 10000, Ev.attempt "attestation" 2, Ev.wait 15000,
          Ev.attempt "attestation" 3, Ev.wait 20000, Ev.attempt "attestation" 4]) :=
  fetchGo_allFail "attestation" oracle "Failed to fetch attestation after retries: " f h

/-- C4 (amended): every evidence fetch — signature or attestation — makes
at most 5 attempts; when every attempt fails, the successive waits are
exactly 5 s, 10 s, 15 s and 20 s between attempts 1→2 … 4→5 (the
configured fifth delay of 30 s is never awaited, since the fifth failure
throws immediately), the run waits 50000 ms ≥ 50 seconds in total, and the
raised fetch error carries the last underlying cause. -/
theorem claim_c4_retry_schedule (sigOracle : Nat → FetchOutcome SignatureResponse)
    (attOracle : Nat → FetchOutcome AttestationResponse) :
    attemptCount (fetchSignatureRun sigOracle).2 ≤ backoffAttempts ∧
    attemptCount (fetchAttestationRun attOracle).2 ≤ backoffAttempts ∧
    backoffAttempts = 5 ∧
    (∀ f : Nat → String,
      (∀ i, i < backoffAttempts → sigOracle i = FetchOutcome.err (f i)) →
      waitsOf (fetchSignatureRun sigOracle).2 = [5000, 10000, 15000, 20000] ∧
      (waitsOf (fetchSignatureRun sigOracle).2).sum = 50000 ∧
      50000 ≤ (waitsOf (fetchSignatureRun sigOracle).2).sum ∧
      attemptCount (fetchSignatureRun sigOracle).2 = backoffAttempts ∧
      (fetchSignatureRun sigOracle).1 =
        Except.error ("Failed to fetch signature after retries: " ++ f 4)) ∧
    (∀ g : Nat → String,
      (∀ i, i < backoffAttempts → attOracle i = FetchOutcome.err (g i)) →
      waitsOf (fetchAttestationRun attOracle).2 = [5000, 10000, 15000, 20000] ∧
      (waitsOf (fetchAttestationRun attOracle).2).sum = 50000 ∧
      50000 ≤ (waitsOf (fetchAttestationRun attOracle).2).sum ∧
      attemptCount (fetchAttestationRun attOracle).2 = backoffAttempts ∧
      (fetchAttestationRun attOracle).1 =
        Except.error ("Failed to fetch attestation after retries: " ++ g 4)) := by
  refine ⟨fetchGo_attemptCount "signature" sigOracle
      "Failed to fetch signature after retries: " backoffAttempts 0 "undefined",
    fetchGo_attemptCount "attestation" attOracle
      "Failed to fetch attestation after retries: " backoffAttempts 0 "undefined",
    rfl, ?_, ?_⟩
  · intro f hf
    rw [fetchSignatureRun_allFail sigOracle f hf]
    exact ⟨rfl, rfl, Nat.le_refl 50000, rfl, rfl⟩
  · intro g hg
    rw [fetchAttestationRun_allFail attOracle g hg]
    exact ⟨rfl, rfl, Nat.le_refl 50000, rfl, rfl⟩

/-- C4 (counterexample): on runs of either evidence fetch whose five
attempts all fail, the waits are 5 s, 10 s, 15 s and 20 s — not the claimed
sequence ending in a 30 s wait, which never occurs in either fetch. -/
theorem claim_c4_counterexample :
    waitsOf (fetchSignatureRun failSigOracle).2 = [5000, 10000, 15000, 20000] ∧
    waitsOf (fetchSignatureRun failSigOracle).2 ≠ [5000, 10000, 15000, 20000, 30000] ∧
    ¬ 30000 ∈ waitsOf (fetchSignatureRun failSigOracle).2 ∧
    waitsOf (fetchAttestationRun failAttOracle).2 = [5000, 10000, 15000, 20000] ∧
    waitsOf (fetchAttestationRun failAttOracle).2 ≠ [5000, 10000, 15000, 20000, 30000] ∧
    ¬ 30000 ∈ waitsOf (fetchAttestationRun failAttOracle).2 := by
  refine ⟨by decide, by decide, by decide, by decide, by decide, by decide⟩

/-- C4 (witness): the amended schedule evaluated on concrete signature and
attestation oracles whose every attempt fails with "boom". -/
theorem claim_c4_witness :
    (waitsOf (fetchSignatureRun failSigOracle).2 = [5000, 10000, 15000, 20000] ∧
      (waitsOf (fetchSignatureRun failSigOracle).2).sum = 50000 ∧
      50000 ≤ (waitsOf (fetchSignatureRun failSigOracle).2).sum ∧
      attemptCount (fetchSignatureRun failSigOracle).2 = backoffAttempts ∧
      (fetchSignatureRun failSigOracle).1 =
        Except.error ("Failed to fetch signature after retries: " ++ "boom")) ∧
    (waitsOf (fetchAttestationRun failAttOracle).2 = [5000, 10000, 15000, 20000] ∧
      (waitsOf (fetchAttestationRun failAttOracle).2).sum = 50000 ∧
      50000 ≤ (waitsOf (fetchAttestationRun failAttOracle).2).sum ∧
      attemptCount (fetchAttestationRun failAttOracle).2 = backoffAttempts ∧
      (fetchAttestationRun failAttOracle).1 =
        Except.error ("Failed to fetch attestation after retries: " ++ "boom")) :=
  ⟨(claim_c4_retry_schedule failSigOracle failAttOracle).2.2.2.1
      (fun _ => "boom") (fun _ _ => rfl),
   (claim_c4_retry_schedule failSigOracle failAttOracle).2.2.2.2
      (fun _ => "boom") (fun _ _ => rfl)⟩

/-- Every attempt event in a fetch run's timeline carries that run's tag. -/
theorem fetchGo_tags {α : Type} (tag : String) (oracle : Nat → FetchOutcome α)
    (failMsg : String) :
    ∀ fuel i lastError t j,
      Ev.attempt t j ∈ (fetchGo tag oracle failMsg fuel i lastError).2 → t = tag := by
  intro fuel
  induction fuel with
  | zero => intro i last t j hmem; simp [fetchGo] at hmem
  | succ n ih =>
    intro i last t j hmem
    cases h : oracle i with
    | ok v =>
      simp [fetchGo, h] at hmem
      exact hmem.1
    | err e =>
      by_cases hi : i < backoffAttempts - 1
      · simp [fetchGo, h, hi] at hmem
        rcases hmem with ⟨h1, _⟩ | hmem
        · exact h1
        · exact ih (i + 1) e t j hmem
      · simp [fetchGo, h, hi] at hmem
        rcases hmem with ⟨h1, _⟩ | hmem
        · exact h1
        · exact ih (i + 1) e t j hmem

/-- Prepending events that contain no `tag` attempt shifts the time to the
first `tag` attempt by the prepended waits. -/
theorem timeToFirstAttempt_append (tag : String) (l r : List Ev)
    (h : ∀ t j, Ev.attempt t j ∈ l → t ≠ tag) :
    timeToFirstAttempt tag (l ++ r) =
      (timeToFirstAttempt tag r).map (fun x => (waitsOf l).sum + x) := by
  induction l with
  | nil =>
    simp [waitsOf, timeToFirstAttempt]
  | cons e rest ih =>
    have hrest : ∀ t j, Ev.attempt t j ∈ rest → t ≠ tag :=
      fun t j hm => h t j (List.mem_cons_of_mem _ hm)
    cases e with
    | attempt t j =>
      have hne : t ≠ tag := h t j (List.mem_cons_self _ _)
      simp [timeToFirstAttempt, hne, waitsOf, ih hrest]
    | wait ms =>
      rw [List.cons_append,
        show timeToFirstAttempt tag (Ev.wait ms :: (rest ++ r)) =
          (timeToFirstAttempt tag (rest ++ r)).map (fun x => ms + x) from rfl,
        ih hrest,
        show waitsOf (Ev.wait ms :: rest) = ms :: waitsOf rest from rfl,
        List.sum_cons]
      cases timeToFirstAttempt tag r with
      | none => rfl
      | some x =>
        simp only [Option.map_some']
        congr 1
        omega

/-- C8 (amended): within one attempt the two evidence fetches are awaited
sequentially — the timeline is the signature run's events followed by the
attestation run's — the attestation fetch is issued whatever the signature
fetch did (a caught signature failure does not cancel it), and its first
attempt is issued only once all of the signature run's waits have elapsed. -/
theorem claim_c8_sequential_fetches (hashFn : String → String)
    (recover : String → String → Option String)
    (sigOracle : Nat → FetchOutcome SignatureResponse)
    (attOracle : Nat → FetchOutcome AttestationResponse)
    (fetchedAt : String) (p : VerifyParams) :
    (verifyMessage hashFn recover sigOracle attOracle fetchedAt p).2 =
      (fetchSignatureRun sigOracle).2 ++ (fetchAttestationRun attOracle).2 ∧
    (∃ tr, (fetchAttestationRun attOracle).2 = Ev.attempt "attestation" 0 :: tr) ∧
    timeToFirstAttempt "attestation"
        (verifyMessage hashFn recover sigOracle attOracle fetchedAt p).2 =
      some ((waitsOf (fetchSignatureRun sigOracle).2).sum) := by
  refine ⟨verifyMessage_snd hashFn recover sigOracle attOracle fetchedAt p,
    fetchAttestationRun_head attOracle, ?_⟩
  have hno : ∀ t j, Ev.attempt t j ∈ (fetchSignatureRun sigOracle).2 → t ≠ "attestation" := by
    intro t j hm
    have ht := fetchGo_tags "signature" sigOracle
      "Failed to fetch signature after retries: " backoffAttempts 0 "undefined" t j hm
    rw [ht]
    decide
  rw [verifyMessage_snd, timeToFirstAttempt_append "attestation" _ _ hno]
  obtain ⟨tr, htr⟩ := fetchAttestationRun_head attOracle
  rw [htr]
  simp [timeToFirstAttempt]

/-- C8 (counterexample): the attestation fetch's start time depends on the
signature fetch's outcome — 50 seconds in when the signature fetch exhausts
its retries, immediate when the signature fetch succeeds at once — so the
two fetches are not issued concurrently and are not independent. -/
theorem claim_c8_counterexample :
    timeToFirstAttempt "attestation"
        (verifyMessage hashPre recoverConst failSigOracle okAttOracle "t0" sampleParams).2 =
      some 50000 ∧
    timeToFirstAttempt "attestation"
        (verifyMessage hashPre recoverConst okSigOracle okAttOracle "t0" sampleParams).2 =
      some 0 := by
  refine ⟨by decide, by decide⟩

/-- C5 (amended): the orchestration is raced against the fixed 30-second
ceiling; a resolution before the deadline wins and is stored as is, while a
timeout (late or never-arriving resolution) still terminates the attempt
with status "failed", `verified = false`, error `String(new
Error("verification-timeout"))` — the string "Error: verification-timeout"
— and best-effort hashes recomputed with the newline convention. -/
theorem claim_c5_timeout_race (hashFn : String → String)
    (orch : Option (VerificationData × Nat)) (chatId : Option String)
    (requestBodyJson streamedText fetchedAt : String) :
    verificationTimeoutMs = 30000 ∧
    (∀ d t, orch = some (d, t) → t < verificationTimeoutMs →
      runVerificationTask hashFn orch chatId requestBodyJson streamedText fetchedAt =
        { verification := d
          verificationStatus := if d.verified then "verified" else "failed" }) ∧
    ((orch = none ∨ ∃ d t, orch = some (d, t) ∧ verificationTimeoutMs ≤ t) →
      (runVerificationTask hashFn orch chatId requestBodyJson streamedText
          fetchedAt).verificationStatus = "failed" ∧
      (runVerificationTask hashFn orch chatId requestBodyJson streamedText
          fetchedAt).verification.verified = false ∧
      (runVerificationTask hashFn orch chatId requestBodyJson streamedText
          fetchedAt).verification.error = some (jsErrorString "verification-timeout") ∧
      jsErrorString "verification-timeout" = "Error: verification-timeout" ∧
      (runVerificationTask hashFn orch chatId requestBodyJson streamedText
          fetchedAt).verification.requestHash = hashFn (requestBodyJson ++ "\n\n") ∧
      (runVerificationTask hashFn orch chatId requestBodyJson streamedText
          fetchedAt).verification.responseHash = hashFn (streamedText ++ "\n\n")) := by
  refine ⟨rfl, ?_, ?_⟩
  · intro d t ho ht
    subst ho
    simp [runVerificationTask, ht]
  · intro ho
    rcases ho with ho | ⟨d, t, ho, ht⟩
    · subst ho
      refine ⟨rfl, rfl, rfl, rfl, rfl, rfl⟩
    · subst ho
      have hnt : ¬ t < verificationTimeoutMs := by omega
      simp only [runVerificationTask, hnt, if_false]
      refine ⟨rfl, rfl, rfl, rfl, rfl, rfl⟩

/-- C5 (counterexample): the error stored by the timeout path is the
`String()` rendering "Error: verification-timeout", not the bare string
"verification-timeout" the claim states. -/
theorem claim_c5_counterexample :
    (runVerificationTask hashPre none (some "chat-1") "rq" "rs" "t0").verification.error =
      some "Error: verification-timeout" ∧
    (runVerificationTask hashPre none (some "chat-1") "rq" "rs" "t0").verification.error ≠
      some "verification-timeout" := by
  refine ⟨by decide, by decide⟩

/-- C5 (witness): a resolution at 100 ms wins the race and is stored as is,
and a never-resolving orchestration produces the amended timeout record. -/
theorem claim_c5_witness :
    (runVerificationTask hashPre (some (sampleVerdict, 100)) (some "chat-1") "rq" "rs" "t0" =
      { verification := sampleVerdict
        verificationStatus := if sampleVerdict.verified then "verified" else "failed" }) ∧
    ((runVerificationTask hashPre none (some "chat-1") "rq" "rs" "t0").verificationStatus = "failed" ∧
      (runVerificationTask hashPre none (some "chat-1") "rq" "rs" "t0").verification.verified = false ∧
      (runVerificationTask hashPre none (some "chat-1") "rq" "rs" "t0").verification.error =
        some (jsErrorString "verification-timeout") ∧
      jsErrorString "verification-timeout" = "Error: verification-timeout" ∧
      (runVerificationTask hashPre none (some "chat-1") "rq" "rs" "t0").verification.requestHash =
        hashPre ("rq" ++ "\n\n") ∧
      (runVerificationTask hashPre none (some "chat-1") "rq" "rs" "t0").verification.responseHash =
        hashPre ("rs" ++ "\n\n")) :=
  ⟨(claim_c5_timeout_race hashPre (some (sampleVerdict, 100)) (some "chat-1") "rq" "rs" "t0").2.1
      sampleVerdict 100 rfl (by decide),
   (claim_c5_timeout_race hashPre none (some "chat-1") "rq" "rs" "t0").2.2 (Or.inl rfl)⟩
